import Mathlib

/-!
Verification development for the multi-robot pick-and-place scheduler.

The repository contains three implementations of the planning engine:
`desktop/solver.py` (class `IndustrialRobotScheduler`, driven by
`run_scheduler`), `test.py` (a fuller `IndustrialRobotScheduler` with
numerical IK, trapezoidal timing and a sampling collision resolver) and
`main.py` (a reduced `Scheduler`).  The definitions below are shallow
embeddings of those Python functions: Python floats are modelled as real
numbers, `int(x)` truncation as `pyTrunc`, numpy 3-vectors and tuples as
`Vec3`, 4x4 homogeneous matrices as `Mat4`, and Python exceptions as
`Except` values.  Calls into scipy (`scipy.optimize.minimize`, used by
the inverse-kinematics routines) are not part of the repository; the
functions that consume an IK result therefore take the IK solver as an
explicit oracle argument.  Rendering of output numbers with `%.1f` is a
presentation detail of the final f-strings and is not modelled; output
lines carry the exact emitted values.
-/

noncomputable section

/-- Cartesian point/vector in metres, world frame (numpy 3-vectors and the
coordinate tuples of the source). -/
structure Vec3 where
  x : ℝ
  y : ℝ
  z : ℝ

instance : Add Vec3 := ⟨fun a b => ⟨a.x + b.x, a.y + b.y, a.z + b.z⟩⟩

instance : Sub Vec3 := ⟨fun a b => ⟨a.x - b.x, a.y - b.y, a.z - b.z⟩⟩



/-- Euclidean norm of a 3-vector (`np.linalg.norm` on a length-3 array). -/
def norm3 (v : Vec3) : ℝ := Real.sqrt (v.x ^ 2 + v.y ^ 2 + v.z ^ 2)

/-- Euclidean distance between two points (`math.dist`). -/
def dist3 (p q : Vec3) : ℝ := norm3 (p - q)

/-- Python `int(x)` applied to a float: truncation toward zero. -/
def pyTrunc (x : ℝ) : ℤ := if 0 ≤ x then ⌊x⌋ else -⌊-x⌋

/-- Conversion from degrees to radians (`math.radians`, `np.pi / 180`
scaling in the source). -/
def radians (x : ℝ) : ℝ := x * Real.pi / 180

/-- Joint limit record: `(min_angle, max_angle, max_velocity,
max_acceleration)`, angles in degrees, rates in deg/s and deg/s^2. -/
structure JointParams where
  min_angle : ℝ
  max_angle : ℝ
  max_velocity : ℝ
  max_acceleration : ℝ

/-- One pick-and-place operation: pick point, place point and the dwell
(`process_time`) in milliseconds. -/
structure Operation where
  pick_point : Vec3
  place_point : Vec3
  process_time : ℝ

/-- Time-stamped TCP waypoint `Waypoint(time_ms, x, y, z)`. -/
structure Waypoint where
  time_ms : ℤ
  x : ℝ
  y : ℝ
  z : ℝ

/-- Position of a waypoint as a `Vec3`. -/
def Waypoint.pos (w : Waypoint) : Vec3 := ⟨w.x, w.y, w.z⟩

/-- `Waypoint(t, *p)`: waypoint at time `t` whose coordinates come from
unpacking the point `p`. -/
def wpAt (t : ℤ) (p : Vec3) : Waypoint := ⟨t, p.x, p.y, p.z⟩


/-- Homogeneous 4x4 transform (numpy `np.eye(4)` matrices / `Matrix4`). -/
structure Mat4 where
  m00 : ℝ
  m01 : ℝ
  m02 : ℝ
  m03 : ℝ
  m10 : ℝ
  m11 : ℝ
  m12 : ℝ
  m13 : ℝ
  m20 : ℝ
  m21 : ℝ
  m22 : ℝ
  m23 : ℝ
  m30 : ℝ
  m31 : ℝ
  m32 : ℝ
  m33 : ℝ

/-- The identity transform `np.eye(4)`. -/
def Mat4.id : Mat4 := ⟨1, 0, 0, 0, 0, 1, 0, 0, 0, 0, 1, 0, 0, 0, 0, 1⟩

/-- Matrix product `T @ A` (`np.dot`). -/
def Mat4.mul (A B : Mat4) : Mat4 :=
  ⟨A.m00 * B.m00 + A.m01 * B.m10 + A.m02 * B.m20 + A.m03 * B.m30,
   A.m00 * B.m01 + A.m01 * B.m11 + A.m02 * B.m21 + A.m03 * B.m31,
   A.m00 * B.m02 + A.m01 * B.m12 + A.m02 * B.m22 + A.m03 * B.m32,
   A.m00 * B.m03 + A.m01 * B.m13 + A.m02 * B.m23 + A.m03 * B.m33,
   A.m10 * B.m00 + A.m11 * B.m10 + A.m12 * B.m20 + A.m13 * B.m30,
   A.m10 * B.m01 + A.m11 * B.m11 + A.m12 * B.m21 + A.m13 * B.m31,
   A.m10 * B.m02 + A.m11 * B.m12 + A.m12 * B.m22 + A.m13 * B.m32,
   A.m10 * B.m03 + A.m11 * B.m13 + A.m12 * B.m23 + A.m13 * B.m33,
   A.m20 * B.m00 + A.m21 * B.m10 + A.m22 * B.m20 + A.m23 * B.m30,
   A.m20 * B.m01 + A.m21 * B.m11 + A.m22 * B.m21 + A.m23 * B.m31,
   A.m20 * B.m02 + A.m21 * B.m12 + A.m22 * B.m22 + A.m23 * B.m32,
   A.m20 * B.m03 + A.m21 * B.m13 + A.m22 * B.m23 + A.m23 * B.m33,
   A.m30 * B.m00 + A.m31 * B.m10 + A.m32 * B.m20 + A.m33 * B.m30,
   A.m30 * B.m01 + A.m31 * B.m11 + A.m32 * B.m21 + A.m33 * B.m31,
   A.m30 * B.m02 + A.m31 * B.m12 + A.m32 * B.m22 + A.m33 * B.m32,
   A.m30 * B.m03 + A.m31 * B.m13 + A.m32 * B.m23 + A.m33 * B.m33⟩

/-- The standard DH link matrix built from `(a, alpha, d, theta)`; shared
by `desktop/solver.py` (`forward_kinematics` body) and `test.py`
(`dh_transform`). -/
def dh_transform (a alpha d theta : ℝ) : Mat4 :=
  ⟨Real.cos theta, -Real.sin theta * Real.cos alpha, Real.sin theta * Real.sin alpha, a * Real.cos theta,
   Real.sin theta, Real.cos theta * Real.cos alpha, -Real.cos theta * Real.sin alpha, a * Real.sin theta,
   0, Real.sin alpha, Real.cos alpha, d,
   0, 0, 0, 1⟩

/-- The fixed UR5-class DH table `(a, alpha, d, theta_offset)`, identical
in `desktop/solver.py` and `test.py`. -/
def dh_params : List (ℝ × ℝ × ℝ × ℝ) :=
  [(0, Real.pi / 2, 0.089159, 0),
   (-0.425, 0, 0, 0),
   (-0.39225, 0, 0, 0),
   (0, Real.pi / 2, 0.10915, 0),
   (0, -(Real.pi / 2), 0.09465, 0),
   (0, 0, 0.0823, 0)]

/-- The fixed home joint vector of `desktop/solver.py`
(`[0, -pi/2, 0, 0, pi/2, 0]`, radians). -/
def home_theta : List ℝ := [0, -(Real.pi / 2), 0, 0, Real.pi / 2, 0]

/-- Desktop `forward_kinematics`: product of the six DH link matrices at
joint angles `theta` (radians), starting from the identity. -/
def forward_kinematics (theta : List ℝ) : Mat4 :=
  (List.range 6).foldl
    (fun T i =>
      let p := dh_params.getD i (0, 0, 0, 0)
      T.mul (dh_transform p.1 p.2.1 p.2.2.1 (theta.getD i 0 + p.2.2.2)))
    Mat4.id

/-- Translation column `T[:3, 3]` of a homogeneous transform. -/
def fkTranslation (M : Mat4) : Vec3 := ⟨M.m03, M.m13, M.m23⟩

/-- Desktop `get_home_position`: TCP of the home joint vector, offset by
the robot base. -/
def get_home_position (base : Vec3) : Vec3 :=
  fkTranslation (forward_kinematics home_theta) + base

/-- Error kinds surfaced by the embedded Python code. -/
inductive PyErr where
  | emptyInput
  | invalidKN
  | lineCount
  | invalidBases
  | invalidJoints
  | invalidSafety
  | invalidOps
  | typeError
  | indexError
  | collisionError
deriving DecidableEq

/-! ## Embedding of `test.py` (`IndustrialRobotScheduler`) -/

namespace FullSched

/-- `joint_time(delta, idx)` of `test.py`: symmetric trapezoidal profile
time for one joint, with `delta` the angular displacement in radians and
the peak rates taken from the degree-valued joint parameters. -/
def joint_time (jp : List JointParams) (delta : ℝ) (idx : ℕ) : ℝ :=
  let p := jp.getD idx ⟨0, 0, 0, 0⟩
  let v := radians p.max_velocity
  let a := radians p.max_acceleration
  let s := |delta|
  let t_acc := v / a
  let s_acc := 0.5 * a * t_acc ^ 2
  if 2 * s_acc ≥ s then 2 * Real.sqrt (s / a) else 2 * t_acc + (s - 2 * s_acc) / v

/-- Python `max` over a non-empty list (the generator in `move_time`);
the `[]` case cannot occur there. -/
def listMax : List ℝ → ℝ
  | [] => 0
  | x :: xs => xs.foldl max x

/-- An inverse-kinematics oracle: `solve_ik(target, seed)` for a fixed
robot.  `solve_ik` in the source delegates to `scipy.optimize.minimize`
(L-BFGS-B), which is outside the repository, so the functions below are
parameterised by the oracle's result (degrees, or `none` on failure). -/
abbrev IkOracle := Vec3 → List ℝ → Option (List ℝ)

/-- `move_time(start, end, rid, start_joints)` of `test.py`: IK at the
start (falling back to `start_joints` via Python `or` when it fails), IK
at the end seeded with the start solution, and the per-joint trapezoidal
times; `none` models the `float("inf")` returned when the end IK fails. -/
def move_time (ik : IkOracle) (jp : List JointParams) (start_pt end_pt : Vec3)
    (start_joints : List ℝ) : Option ℝ :=
  let s := (ik start_pt start_joints).getD start_joints
  match ik end_pt s with
  | none => none
  | some e =>
      some (listMax ((List.range 6).map fun i =>
        joint_time jp (|radians (e.getD i 0 - s.getD i 0)|) i) * 1000)

/-- Linear interpolation between two bracketing waypoints at instant `t`
(the body of the `for` loop of `get_pos_at`).  The integer times are
divided as Python floats; the source never reaches a zero denominator on
the schedules it builds. -/
def lerpWp (a b : Waypoint) (t : ℤ) : Vec3 :=
  let f : ℝ := ((t - a.time_ms : ℤ) : ℝ) / ((b.time_ms - a.time_ms : ℤ) : ℝ)
  ⟨a.x + f * (b.x - a.x), a.y + f * (b.y - a.y), a.z + f * (b.z - a.z)⟩

/-- The scan of `get_pos_at` over consecutive waypoint pairs: the first
pair whose times bracket `t` interpolates; falling through returns the
last waypoint's position. -/
def posScan : List Waypoint → ℤ → Vec3
  | [], _ => ⟨0, 0, 0⟩
  | [a], _ => a.pos
  | a :: b :: rest, t =>
      if a.time_ms ≤ t ∧ t ≤ b.time_ms then lerpWp a b t else posScan (b :: rest) t

/-- `get_pos_at(sched, t)` of `test.py`: clamped piecewise-linear
interpolation of a schedule. -/
def get_pos_at (sched : List Waypoint) (t : ℤ) : Vec3 :=
  match sched with
  | [] => ⟨0, 0, 0⟩
  | w :: ws => if t ≤ w.time_ms then w.pos else posScan (w :: ws) t

/-- Active window `(s[0].time_ms, s[-1].time_ms)` of a schedule, `(0,0)`
when empty. -/
def window (s : List Waypoint) : ℤ × ℤ :=
  match s with
  | [] => (0, 0)
  | w :: ws => (w.time_ms, (ws.getLast? ).getD w |>.time_ms)

/-- The sampling instants of the `while` loop of `check_collisions`:
`t = a, a + 5, ...` while `t ≤ b` (`collision_dt_ms = 5`). -/
def sampleTimes (a b : ℤ) : List ℤ :=
  if a ≤ b then (List.range ((b - a).toNat / 5 + 1)).map (fun k => a + 5 * k) else []

/-- Collision test for one ordered pair of schedules: skip when the
active windows are disjoint, otherwise require the sampled interpolated
distance to stay at least `min_safe` (the body of the nested loops of
`check_collisions`). -/
def pairOk (min_safe : ℝ) (s1 s2 : List Waypoint) : Bool :=
  let w1 := window s1
  let w2 := window s2
  if w1.2 < w2.1 ∨ w2.2 < w1.1 then true
  else
    (sampleTimes (max w1.1 w2.1) (min w1.2 w2.2)).all fun t =>
      if dist3 (get_pos_at s1 t) (get_pos_at s2 t) < min_safe then false else true

/-- `check_collisions` of `test.py`: every pair `r1 < r2` of robot
schedules passes `pairOk` with `min_safe = safe_distance +
2 * tool_clearance`.  The iteration over `r2 in range(r1+1, K)` is
written as a filtered double loop over `range K`. -/
def check_collisions (tool_clearance safe_distance : ℝ)
    (schedules : List (List Waypoint)) : Bool :=
  let min_safe := safe_distance + 2 * tool_clearance
  let n := schedules.length
  (List.range n).all fun r1 =>
    (List.range n).all fun r2 =>
      if r1 < r2 then pairOk min_safe (schedules.getD r1 []) (schedules.getD r2 []) else true

/-- One delay round of `resolve_collisions`: every waypoint of every
robot is shifted by 200 ms. -/
def shiftAll (schedules : List (List Waypoint)) : List (List Waypoint) :=
  schedules.map fun s => s.map fun w => { w with time_ms := w.time_ms + 200 }

/-- The `while not check_collisions() and it < max_collision_iterations`
loop of `resolve_collisions`, with explicit fuel. -/
def resolveLoop (tool_clearance safe_distance : ℝ) :
    ℕ → List (List Waypoint) → List (List Waypoint)
  | 0, s => s
  | n + 1, s =>
      if check_collisions tool_clearance safe_distance s then s
      else resolveLoop tool_clearance safe_distance n (shiftAll s)

/-- `resolve_collisions` of `test.py`: up to `max_collision_iterations =
200` delay rounds, then a final check that raises when collisions
remain.  The source mutates `self.schedules`; the embedding returns the
new schedule set. -/
def resolve_collisions (tool_clearance safe_distance : ℝ)
    (schedules : List (List Waypoint)) : Except PyErr (List (List Waypoint)) :=
  let s := resolveLoop tool_clearance safe_distance 200 schedules
  if check_collisions tool_clearance safe_distance s then .ok s else .error .collisionError

/-- The collision stage of `solve` in `test.py`: `if self.num_robots > 1
and not self.check_collisions(): self.resolve_collisions()`. -/
def collisionStage (num_robots : ℕ) (tool_clearance safe_distance : ℝ)
    (schedules : List (List Waypoint)) : Except PyErr (List (List Waypoint)) :=
  if 1 < num_robots ∧ check_collisions tool_clearance safe_distance schedules = false then
    resolve_collisions tool_clearance safe_distance schedules
  else .ok schedules

end FullSched

open Classical in
/-- Total time spent at rest on the point `p` in a waypoint list: the sum
of the durations of the consecutive waypoint pairs that both sit on `p`
(the reading of "time spent at rest" in spec property P3). -/
def restTimeAt (p : Vec3) : List Waypoint → ℤ
  | [] => 0
  | [_] => 0
  | a :: b :: rest =>
      (if a.pos = p ∧ b.pos = p then b.time_ms - a.time_ms else 0) + restTimeAt p (b :: rest)

/-! ## Embedding of `desktop/solver.py` (`IndustrialRobotScheduler`) -/

namespace Desktop

/-- `self.max_reach = 1.7` of the desktop scheduler. -/
def max_reach : ℝ := 1.7

/-- Desktop `is_reachable(point, base)`: reject when the distance to the
base exceeds the arm reach, otherwise ask the (scipy-backed, hence
oracle-modelled) `inverse_kinematics` for the local point. -/
def is_reachable (ik : Vec3 → Option (List ℝ)) (point base : Vec3) : Bool :=
  if max_reach < dist3 point base then false
  else (ik (point - base)).isSome

/-- Desktop `calculate_move_time_joint_space`: NOT the trapezoidal law of
`test.py` — each joint contributes `delta / v_max + v_max / a_max` and
the maximum is returned in truncated milliseconds. -/
def calculate_move_time_joint_space (joint_params : List JointParams)
    (theta_start theta_end : List ℝ) : ℤ :=
  let max_t := (List.range 6).foldl
    (fun m j =>
      let delta := |theta_end.getD j 0 - theta_start.getD j 0|
      let v_max := (joint_params.getD j ⟨0, 0, 0, 0⟩).max_velocity * Real.pi / 180
      let a_max := (joint_params.getD j ⟨0, 0, 0, 0⟩).max_acceleration * Real.pi / 180
      if a_max ≤ 0 ∨ v_max ≤ 0 then m else max m (delta / v_max + v_max / a_max))
    0
  pyTrunc (max_t * 1000)

/-- The `for j, base in enumerate(self.robot_bases)` argmin of
`assign_operations_to_robots`: nearest base to the pick point, strict
improvement only, starting from `best_robot = 0`, `min_dist = inf`
(the `none` accumulator). -/
def bestRobot (robot_bases : List Vec3) (p : Vec3) : ℕ :=
  (robot_bases.enum.foldl
    (fun acc jb =>
      match acc.2 with
      | none => (jb.1, some (norm3 (p - jb.2)))
      | some m => if norm3 (p - jb.2) < m then (jb.1, some (norm3 (p - jb.2))) else acc)
    ((0 : ℕ), (none : Option ℝ))).1

/-- `assignments[best_robot].append(op)`. -/
def appendAt : ℕ → Operation → List (List Operation) → List (List Operation)
  | _, _, [] => []
  | 0, op, l :: ls => (l ++ [op]) :: ls
  | n + 1, op, l :: ls => l :: appendAt n op ls

/-- Desktop `assign_operations_to_robots`: every operation goes to the
robot whose base is nearest to its pick point — there is no
reachability check in this implementation. -/
def assign_operations_to_robots (num_robots : ℕ) (robot_bases : List Vec3)
    (operations : List Operation) : List (List Operation) :=
  operations.foldl (fun acc op => appendAt (bestRobot robot_bases op.pick_point) op acc)
    (List.replicate num_robots [])

/-- Loop body of desktop `generate_trajectory_for_robot`: move to pick,
dwell `int(process_time)` at pick, move to place; the cursor
(`home_pos` in the source) becomes the place point. -/
def opStep (st : Vec3 × ℤ × List Waypoint) (op : Operation) : Vec3 × ℤ × List Waypoint :=
  let pos := st.1
  let t := st.2.1
  let wps := st.2.2
  let t1 := t + pyTrunc (norm3 (op.pick_point - pos) / 0.3 * 1000)
  let t2 := t1 + pyTrunc op.process_time
  let t3 := t2 + pyTrunc (norm3 (op.place_point - op.pick_point) / 0.3 * 1000)
  (op.place_point, t3, wps ++ [wpAt t1 op.pick_point, wpAt t2 op.pick_point, wpAt t3 op.place_point])

/-- Desktop `generate_trajectory_for_robot`: start at the home TCP,
process the operations, and append a final waypoint back at the home
TCP.  Empty operation lists yield the empty schedule. -/
def generate_trajectory_for_robot (robot_bases : List Vec3) (rid : ℕ)
    (ops : List Operation) : List Waypoint :=
  match ops with
  | [] => []
  | _ =>
    let base := robot_bases.getD rid ⟨0, 0, 0⟩
    let home := get_home_position base
    let res := ops.foldl opStep (home, 0, [wpAt 0 home])
    res.2.2 ++
      [wpAt (res.2.1 + pyTrunc (norm3 (get_home_position base - res.1) / 0.3 * 1000)) home]

/-- `max((s[-1].time_ms for s in self.schedules if s), default=0)`. -/
def makespanOf (schedules : List (List Waypoint)) : ℤ :=
  match schedules.filterMap (fun s => s.getLast?.map Waypoint.time_ms) with
  | [] => 0
  | t :: ts => ts.foldl max t

/-- The waypoint blocks actually written out by desktop `solve`: a robot
with an empty schedule contributes the single waypoint
`(0, *home_position)`, every other robot its schedule verbatim. -/
def emittedWaypoints (num_robots : ℕ) (robot_bases : List Vec3)
    (schedules : List (List Waypoint)) : List (List Waypoint) :=
  (List.range num_robots).map fun r =>
    match schedules.getD r [] with
    | [] => [wpAt 0 (get_home_position (robot_bases.getD r ⟨0, 0, 0⟩))]
    | s => s

/-- One line of the textual result (`%.1f` float rendering elided). -/
inductive OutLine where
  | num (n : ℤ)
  | header (robot count : ℕ)
  | wp (t : ℤ) (x y z : ℝ)

/-- The mutable fields of a desktop `IndustrialRobotScheduler` instance
(the DH table, home vector and reach are fixed constants, embedded
above as plain definitions). -/
structure SchedulerState where
  num_robots : ℕ
  num_operations : ℕ
  robot_bases : List Vec3
  joint_params : List JointParams
  tool_clearance : ℝ
  safe_distance : ℝ
  operations : List Operation
  schedules : List (List Waypoint)
  joint_schedules : List (List (List ℝ))
  unreachable_ops : List ℕ

/-- Desktop `solve`: assign, generate one trajectory per robot, store
them in `self.schedules`, and emit the makespan followed by one block
per robot.  No collision check of any kind is performed. -/
def solve (st : SchedulerState) : SchedulerState × List OutLine :=
  let assignments := assign_operations_to_robots st.num_robots st.robot_bases st.operations
  let schedules := (List.range st.num_robots).map fun r =>
    generate_trajectory_for_robot st.robot_bases r (assignments.getD r [])
  let ewps := emittedWaypoints st.num_robots st.robot_bases schedules
  ({ st with schedules := schedules },
   OutLine.num (makespanOf schedules) ::
     (List.range st.num_robots).flatMap fun r =>
       OutLine.header (r + 1) (ewps.getD r []).length ::
         (ewps.getD r []).map fun w => OutLine.wp w.time_ms w.x w.y w.z)

/-- The per-robot waypoint sequences of the plan emitted by `solve`. -/
def emittedOf (st : SchedulerState) : List (List Waypoint) :=
  emittedWaypoints st.num_robots st.robot_bases (solve st).1.schedules

end Desktop

/-! ## Embedding of desktop `load_from_lines` and `run_scheduler`

The loader consumes whitespace-split text lines.  A token is modelled by
its Python parse behaviour: `asInt` / `asFloat` hold the value exactly
when `int(tok)` / `float(tok)` succeed. -/

/-- An input token with its `int()` / `float()` parse results. -/
structure Tok where
  asInt : Option ℤ
  asFloat : Option ℝ

/-- A float-parseable token that is not int-parseable (e.g. `"1.5"`). -/
def fTok (v : ℝ) : Tok := ⟨none, some v⟩

/-- An int-parseable token (also float-parseable, as in Python). -/
def iTok (k : ℤ) : Tok := ⟨some k, some (k : ℝ)⟩

/-- A token that parses as neither int nor float. -/
def badTok : Tok := ⟨none, none⟩

/-- One whitespace-split input line. -/
abbrev Line := List Tok

namespace Desktop

/-- `[float(x) for x in lines[...].split()]` / `map(float, ...)`:
left-to-right, failing at the first token that does not float-parse. -/
def parseFloats : Line → Option (List ℝ)
  | [] => some []
  | t :: ts =>
    match t.asFloat, parseFloats ts with
    | some v, some vs => some (v :: vs)
    | _, _ => none

/-- A Python `for` loop collecting `f` over a list, raising (propagating
the `Except` error) at the first failure. -/
def mapE {β γ : Type} (f : β → Except PyErr γ) : List β → Except PyErr (List γ)
  | [] => .ok []
  | x :: xs =>
    match f x with
    | .error e => .error e
    | .ok y =>
      match mapE f xs with
      | .error e => .error e
      | .ok ys => .ok (y :: ys)

/-- `self.num_robots, self.num_operations = map(int, lines[0].split())`:
exactly two tokens, both int-parseable (any failure is a `ValueError`
caught by the handler). -/
def parseKN : Line → Option (ℤ × ℤ)
  | [a, b] =>
      match a.asInt, b.asInt with
      | some k, some n => some (k, n)
      | _, _ => none
  | _ => none

/-- One robot base line: `float` over every token (a `ValueError` is
caught), then the `len(base) != 3` check raises into the same handler. -/
def parseBaseLine (l : Line) : Except PyErr (List ℝ) :=
  match parseFloats l with
  | none => .error .invalidBases
  | some v => if v.length = 3 then .ok v else .error .invalidBases

/-- One joint line, `JointParams(*map(float, ...))`: a `ValueError` from
`float` is caught and rewrapped, but a wrong argument count raises an
uncaught `TypeError`. -/
def parseJointLine (l : Line) : Except PyErr JointParams :=
  match parseFloats l with
  | none => .error .invalidJoints
  | some [mn, mx, v, a] => .ok ⟨mn, mx, v, a⟩
  | some _ => .error .typeError

/-- The safety line: unpacking `map(float, ...)` into two targets —
parse failures and wrong arity are both `ValueError`s. -/
def parseSafety (l : Line) : Except PyErr (ℝ × ℝ) :=
  match parseFloats l with
  | none => .error .invalidSafety
  | some [tc, sd] => .ok (tc, sd)
  | some _ => .error .invalidSafety

/-- First three list entries as a point (`np.array` of the parsed floats;
only reached when exactly three are present). -/
def toVec3 (l : List ℝ) : Vec3 := ⟨l.getD 0 0, l.getD 1 0, l.getD 2 0⟩

/-- One operation line: `float` over `split()[:3]` and `split()[3:6]`,
then `split()[6]` (an uncaught `IndexError` when the line has fewer than
seven fields); fields past the seventh are never inspected. -/
def parseOpLine (l : Line) : Except PyErr Operation :=
  match parseFloats (l.take 3) with
  | none => .error .invalidOps
  | some p =>
    match parseFloats ((l.drop 3).take 3) with
    | none => .error .invalidOps
    | some q =>
      match l[6]? with
      | none => .error .indexError
      | some t =>
        match t.asFloat with
        | none => .error .invalidOps
        | some pt => .ok ⟨toVec3 p, toVec3 q, pt⟩

/-- A joint-parameter record violating the loader's bound checks. -/
def badJoint (jp : JointParams) : Bool :=
  if jp.min_angle > jp.max_angle ∨ jp.max_velocity ≤ 0 ∨ jp.max_acceleration ≤ 0 then true
  else false

/-- An operation violating `process_time >= 0`. -/
def badOp (op : Operation) : Bool :=
  if op.process_time < 0 then true else false

/-- The loaded configuration fields of the scheduler. -/
structure Config where
  num_robots : ℕ
  num_operations : ℕ
  robot_bases : List Vec3
  joint_params : List JointParams
  tool_clearance : ℝ
  safe_distance : ℝ
  operations : List Operation

/-- The body of desktop `load_from_lines` after blank lines are
stripped: parse and validate `K N`, check the line count, then parse
bases, joint limits, the safety line and the operations, with the bound
checks of the source. -/
def loadCore (lines : List Line) : Except PyErr Config :=
  match lines with
  | [] => .error .emptyInput
  | l0 :: _ =>
    match parseKN l0 with
    | none => .error .invalidKN
    | some (K, N) =>
      if K ≤ 0 ∨ N ≤ 0 then .error .invalidKN
      else if lines.length ≠ 1 + K.toNat + 6 + 1 + N.toNat then .error .lineCount
      else
        match mapE parseBaseLine ((lines.drop 1).take K.toNat) with
        | .error e => .error e
        | .ok bases =>
          match mapE parseJointLine ((lines.drop (1 + K.toNat)).take 6) with
          | .error e => .error e
          | .ok jps =>
            if jps.any badJoint then .error .invalidJoints
            else
              match parseSafety ((lines.drop (1 + K.toNat + 6)).headD []) with
              | .error e => .error e
              | .ok (tc, sd) =>
                if tc < 0 ∨ sd ≤ 0 then .error .invalidSafety
                else
                  match mapE parseOpLine ((lines.drop (1 + K.toNat + 6 + 1)).take N.toNat) with
                  | .error e => .error e
                  | .ok ops =>
                    if ops.any badOp then .error .invalidOps
                    else .ok ⟨K.toNat, N.toNat, bases.map toVec3, jps, tc, sd, ops⟩

/-- Desktop `load_from_lines`: `lines = [l.strip() for l in lines if
l.strip()]`, then the staged parse above. -/
def load_from_lines (raw : List Line) : Except PyErr Config :=
  loadCore (raw.filter (fun l => !l.isEmpty))

/-- The state of a freshly constructed scheduler right after
`load_from_lines`: loaded fields from the input, working fields as
`__init__` left them (the three list arguments are `[]` on a fresh
instance). -/
def mkState (c : Config) (schedules : List (List Waypoint))
    (joint_schedules : List (List (List ℝ))) (unreachable_ops : List ℕ) : SchedulerState :=
  ⟨c.num_robots, c.num_operations, c.robot_bases, c.joint_params,
   c.tool_clearance, c.safe_distance, c.operations, schedules, joint_schedules, unreachable_ops⟩

/-- Desktop `run_scheduler(input_lines)`: construct a fresh scheduler,
load the input into it, and return the solver's output lines. -/
def run_scheduler (input_lines : List Line) : Except PyErr (List OutLine) :=
  (load_from_lines input_lines).map fun c => (solve (mkState c [] [] [])).2

end Desktop

/-! ## Input contract (spec-side definitions) -/

namespace Desktop

/-- Every token of the line float-parses. -/
def allFloat (l : Line) : Prop := ∀ t ∈ l, (Tok.asFloat t).isSome = true

/-- The input contract of the (amended) claim C7, for the blank-stripped
line list: a first line of exactly two positive integers `K N`, the
exact line count `1 + K + 6 + 1 + N`, `K` base lines of exactly three
floats, six joint lines of exactly four floats with `min <= max`,
`vmax > 0`, `amax > 0`, a safety line of exactly two floats with
`tool_clearance >= 0` and `safe_distance > 0`, and `N` operation lines
of at least seven fields whose first seven parse as floats, with
`process_time >= 0` (fields past the seventh are ignored). -/
def wellFormedCore (lines : List Line) : Prop :=
  ∃ K N : ℤ,
    (∃ a b : Tok, lines.head? = some [a, b] ∧ a.asInt = some K ∧ b.asInt = some N) ∧
    0 < K ∧ 0 < N ∧
    lines.length = 1 + K.toNat + 6 + 1 + N.toNat ∧
    (∀ l ∈ (lines.drop 1).take K.toNat, allFloat l ∧ l.length = 3) ∧
    (∀ l ∈ (lines.drop (1 + K.toNat)).take 6,
      ∃ mn mx v a : ℝ, parseFloats l = some [mn, mx, v, a] ∧ mn ≤ mx ∧ 0 < v ∧ 0 < a) ∧
    (∃ tc sd : ℝ,
      parseFloats ((lines.drop (1 + K.toNat + 6)).headD []) = some [tc, sd] ∧
        0 ≤ tc ∧ 0 < sd) ∧
    (∀ l ∈ (lines.drop (1 + K.toNat + 6 + 1)).take N.toNat,
      7 ≤ l.length ∧ allFloat (l.take 7) ∧
        ∃ pt : ℝ, (l[6]?).bind Tok.asFloat = some pt ∧ 0 ≤ pt)

/-- The input contract on raw lines: blank lines are ignored. -/
def wellFormedInput (raw : List Line) : Prop :=
  wellFormedCore (raw.filter (fun l => !l.isEmpty))

end Desktop

/-! ## Spec-side formulas and concrete scenario data for the claims -/

/-- The spec's one-joint trapezoidal duration (section 4.2): peak
velocity `v` and acceleration `a` already in radians, displacement
`delta`; triangular case when `2 * s_acc >= |delta|`. -/
def trapezoidSpecTime (v a delta : ℝ) : ℝ :=
  let t_acc := v / a
  let s_acc := 0.5 * a * t_acc ^ 2
  if 2 * s_acc ≥ |delta| then 2 * Real.sqrt (|delta| / a)
  else 2 * t_acc + (|delta| - 2 * s_acc) / v

/-- The spec's wide joint limits `(-170, 170, 90, 45)`. -/
def jpWide : JointParams := ⟨-170, 170, 90, 45⟩

/-- Six identical wide joints. -/
def jp6 : List JointParams := [jpWide, jpWide, jpWide, jpWide, jpWide, jpWide]

open Classical in
/-- IK oracle for the C3 counterexample: fails everywhere except at the
end point `(1,0,0)`, where it returns the seed unchanged. -/
def ikCex : FullSched.IkOracle := fun p seed =>
  if p = ⟨1, 0, 0⟩ then some seed else none

/-- Scenario operation `(0.5,0.5,0.5) -> (1,1,1)`, 500 ms dwell. -/
def opC1 : Operation := ⟨⟨0.5, 0.5, 0.5⟩, ⟨1, 1, 1⟩, 500⟩

/-- Two robots sharing the base at the origin, one operation: the loaded
state of the C1/C6 counterexample runs of the desktop solver. -/
def stC1 : Desktop.SchedulerState :=
  ⟨2, 1, [⟨0, 0, 0⟩, ⟨0, 0, 0⟩], jp6, 0.1, 0.2, [opC1], [], [], []⟩

/-- Unreachable operation: its pick point lies `sqrt 27 = 5.19` m from
the origin, beyond the 1.7 m arm reach. -/
def opFar : Operation := ⟨⟨3, 3, 3⟩, ⟨3, 3, 3.1⟩, 500⟩

/-- Single-operation scenario for the dwell analysis. -/
def op5 : Operation := ⟨⟨1, 0, 0⟩, ⟨2, 0, 0⟩, 500⟩

/-- Default operation, used only to totalise `List.getLast?`. -/
def opDefault : Operation := ⟨⟨0, 0, 0⟩, ⟨0, 0, 0⟩, 0⟩

/-- One valid joint-limit line. -/
def jointLine7 : Line := [fTok (-170), fTok 170, fTok 90, fTok 45]

/-- C7 counterexample input: a fully valid input whose single operation
line carries an unparseable eighth field. -/
def cex7 : List Line :=
  [[iTok 1, iTok 1],
   [fTok 0, fTok 0, fTok 0],
   jointLine7, jointLine7, jointLine7, jointLine7, jointLine7, jointLine7,
   [fTok 0.1, fTok 0.2],
   [fTok 0.5, fTok 0.5, fTok 0.5, fTok 1, fTok 1, fTok 1, fTok 500, badTok]]

/-! ## General lemmas -/

theorem Vec3.add_def (a b : Vec3) : a + b = ⟨a.x + b.x, a.y + b.y, a.z + b.z⟩ := rfl

theorem Vec3.sub_def (a b : Vec3) : a - b = ⟨a.x - b.x, a.y - b.y, a.z - b.z⟩ := rfl

theorem wpAt_pos (t : ℤ) (p : Vec3) : (wpAt t p).pos = p := rfl

/-- Closed-form value of the forward kinematics at the home joint vector:
all angles are multiples of pi/2, so every entry is rational. -/
theorem forward_kinematics_home :
    forward_kinematics home_theta =
      ⟨0, 1, 0, -0.09465,
       -1, 0, 0, -0.10915,
       0, 0, 1, 0.988709,
       0, 0, 0, 1⟩ := by
  have h6 : List.range 6 = [0, 1, 2, 3, 4, 5] := by decide
  unfold forward_kinematics
  rw [h6]
  simp only [List.foldl, dh_params, home_theta, List.getD, List.get?, Option.getD,
    dh_transform, Mat4.id, Mat4.mul]
  norm_num [Real.cos_pi_div_two, Real.sin_pi_div_two, Real.cos_neg, Real.sin_neg,
    Mat4.mk.injEq]

/-- The home TCP offset relative to the base. -/
theorem get_home_position_eq (base : Vec3) :
    get_home_position base = ⟨-0.09465 + base.x, -0.10915 + base.y, 0.988709 + base.z⟩ := by
  rw [get_home_position, forward_kinematics_home]
  simp [fkTranslation, Vec3.add_def]

/-- The home TCP position never coincides with the base point. -/
theorem get_home_position_ne_base (base : Vec3) : get_home_position base ≠ base := by
  rw [get_home_position_eq]
  intro h
  have hy : -0.10915 + base.y = base.y := congrArg Vec3.y h
  norm_num at hy

/-! ## Loader lemmas -/

namespace Desktop

theorem parseFloats_some_iff (l : Line) :
    (∃ v, parseFloats l = some v) ↔ allFloat l := by
  induction l with
  | nil => simp [parseFloats, allFloat]
  | cons t ts ih =>
    simp only [allFloat, List.mem_cons, forall_eq_or_imp] at ih ⊢
    rw [← ih]
    cases h : t.asFloat <;> cases h2 : parseFloats ts <;> simp [parseFloats, h, h2]

theorem parseFloats_length {l : Line} {v : List ℝ} (h : parseFloats l = some v) :
    v.length = l.length := by
  induction l generalizing v with
  | nil => simp [parseFloats] at h; simp [h]
  | cons t ts ih =>
    cases ht : t.asFloat with
    | none => simp [parseFloats, ht] at h
    | some a =>
      cases h2 : parseFloats ts with
      | none => simp [parseFloats, ht, h2] at h
      | some vs =>
        simp [parseFloats, ht, h2] at h
        subst h
        simp [ih h2]

theorem mapE_ok_iff {β γ : Type} (f : β → Except PyErr γ) (bad : γ → Bool) (l : List β) :
    (∃ ys, mapE f l = .ok ys ∧ ys.any bad = false) ↔
      ∀ x ∈ l, ∃ y, f x = .ok y ∧ bad y = false := by
  induction l with
  | nil => simp [mapE]
  | cons x xs ih =>
    simp only [List.mem_cons, forall_eq_or_imp]
    rw [← ih]
    cases h : f x with
    | error e => simp [mapE, h]
    | ok y =>
      cases h2 : mapE f xs with
      | error e => simp [mapE, h, h2]
      | ok ys =>
        simp [mapE, h, h2, List.any_cons, Bool.or_eq_false_iff, and_assoc]

theorem mapE_ok_iff' {β γ : Type} (f : β → Except PyErr γ) (l : List β) :
    (∃ ys, mapE f l = .ok ys) ↔ ∀ x ∈ l, ∃ y, f x = .ok y := by
  have h := mapE_ok_iff f (fun _ => false) l
  simpa using h

theorem parseKN_some_iff (l : Line) (k n : ℤ) :
    parseKN l = some (k, n) ↔ ∃ a b, l = [a, b] ∧ a.asInt = some k ∧ b.asInt = some n := by
  rcases l with _ | ⟨a, _ | ⟨b, _ | ⟨c, rest⟩⟩⟩
  · simp [parseKN]
  · simp [parseKN]
  · cases ha : a.asInt <;> cases hb : b.asInt <;>
      simp only [parseKN, ha, hb, Option.some_inj, Prod.mk.injEq] <;>
      constructor
    · intro h
      cases h
    · rintro ⟨a1, b1, hl, h1, h2⟩
      simp only [List.cons.injEq, and_true] at hl
      obtain ⟨rfl, rfl⟩ := hl
      rw [ha] at h1
      cases h1
    · intro h
      cases h
    · rintro ⟨a1, b1, hl, h1, h2⟩
      simp only [List.cons.injEq, and_true] at hl
      obtain ⟨rfl, rfl⟩ := hl
      rw [ha] at h1
      cases h1
    · intro h
      cases h
    · rintro ⟨a1, b1, hl, h1, h2⟩
      simp only [List.cons.injEq, and_true] at hl
      obtain ⟨rfl, rfl⟩ := hl
      rw [hb] at h2
      cases h2
    · rintro ⟨rfl, rfl⟩
      exact ⟨a, b, rfl, ha, hb⟩
    · rintro ⟨a1, b1, hl, h1, h2⟩
      simp only [List.cons.injEq, and_true] at hl
      obtain ⟨rfl, rfl⟩ := hl
      rw [ha] at h1
      rw [hb] at h2
      exact ⟨(Option.some_inj.mp h1), (Option.some_inj.mp h2)⟩
  · simp [parseKN]

theorem parseBaseLine_ok_iff (l : Line) :
    (∃ v, parseBaseLine l = .ok v) ↔ allFloat l ∧ l.length = 3 := by
  cases h : parseFloats l with
  | none =>
    simp only [parseBaseLine, h]
    constructor
    · rintro ⟨v, hv⟩
      simp at hv
    · rintro ⟨hf, -⟩
      obtain ⟨v, hv⟩ := (parseFloats_some_iff l).mpr hf
      rw [h] at hv
      cases hv
  | some v =>
    have hlen := parseFloats_length h
    have hf : allFloat l := (parseFloats_some_iff l).mp ⟨v, h⟩
    simp only [parseBaseLine, h]
    rw [← hlen]
    by_cases h3 : v.length = 3
    · simp [h3, hf]
    · simp [h3, hf]

theorem parseJointLine_good_iff (l : Line) :
    (∃ jp, parseJointLine l = .ok jp ∧ badJoint jp = false) ↔
      ∃ mn mx v a : ℝ, parseFloats l = some [mn, mx, v, a] ∧ mn ≤ mx ∧ 0 < v ∧ 0 < a := by
  cases h : parseFloats l with
  | none => simp [parseJointLine, h]
  | some v =>
    rcases v with _ | ⟨mn, _ | ⟨mx, _ | ⟨vv, _ | ⟨aa, _ | ⟨e5, rest⟩⟩⟩⟩⟩ <;>
      simp [parseJointLine, h, badJoint, not_or, not_lt, not_le, and_assoc]

theorem parseSafety_good_iff (l : Line) :
    (∃ p, parseSafety l = .ok p ∧ ¬(p.1 < 0 ∨ p.2 ≤ 0)) ↔
      ∃ tc sd : ℝ, parseFloats l = some [tc, sd] ∧ 0 ≤ tc ∧ 0 < sd := by
  cases h : parseFloats l with
  | none => simp [parseSafety, h]
  | some v =>
    rcases v with _ | ⟨tc, _ | ⟨sd, _ | ⟨e3, rest⟩⟩⟩ <;>
      simp [parseSafety, h, not_or, not_lt, not_le, and_assoc]

theorem parseOpLine_good_iff (l : Line) :
    (∃ op, parseOpLine l = .ok op ∧ badOp op = false) ↔
      7 ≤ l.length ∧ allFloat (l.take 7) ∧
        ∃ pt : ℝ, (l[6]?).bind Tok.asFloat = some pt ∧ 0 ≤ pt := by
  constructor
  · rintro ⟨op, hop, hbad⟩
    cases h1 : parseFloats (l.take 3) with
    | none => simp [parseOpLine, h1] at hop
    | some p =>
      cases h2 : parseFloats ((l.drop 3).take 3) with
      | none => simp [parseOpLine, h1, h2] at hop
      | some q =>
        cases h6 : l[6]? with
        | none => simp [parseOpLine, h1, h2, h6] at hop
        | some t =>
          cases htf : t.asFloat with
          | none => simp [parseOpLine, h1, h2, h6, htf] at hop
          | some pt =>
            simp [parseOpLine, h1, h2, h6, htf] at hop
            obtain ⟨h6lt, h6v⟩ := List.getElem?_eq_some_iff.mp h6
            have h7 : 7 ≤ l.length := h6lt
            refine ⟨h7, ?_, pt, by exact htf, ?_⟩
            · have hd1 : l.take 7 = l.take 3 ++ (l.drop 3).take 4 := List.take_add l 3 4
              have hd2 : (l.drop 3).take 4 = (l.drop 3).take 3 ++ ((l.drop 3).drop 3).take 1 :=
                List.take_add _ 3 1
              have hd3 : (l.drop 3).drop 3 = l.drop 6 := List.drop_drop 3 3 l
              have hd4 : l.drop 6 = l[6] :: l.drop 7 := List.drop_eq_getElem_cons h6lt
              intro t' ht'
              rw [hd1, List.mem_append] at ht'
              rcases ht' with ht' | ht'
              · exact (parseFloats_some_iff _).mp ⟨p, h1⟩ t' ht'
              · rw [hd2, List.mem_append] at ht'
                rcases ht' with ht' | ht'
                · exact (parseFloats_some_iff _).mp ⟨q, h2⟩ t' ht'
                · rw [hd3, hd4] at ht'
                  have htake1 : (l[6] :: l.drop 7).take 1 = [l[6]] := rfl
                  rw [htake1, List.mem_singleton] at ht'
                  subst ht'
                  rw [h6v, htf]
                  rfl
            · subst hop
              simp only [badOp] at hbad
              by_contra hneg
              rw [if_pos (by exact not_le.mp hneg)] at hbad
              cases hbad
  · rintro ⟨h7, hf, pt, hpt, hpt0⟩
    obtain ⟨t, h6, htf⟩ := Option.bind_eq_some.mp hpt
    have hsub3 : l.take 3 ⊆ l.take 7 := by
      have h1 : l.take 3 = (l.take 7).take 3 := by rw [List.take_take]; norm_num
      rw [h1]
      exact List.take_subset _ _
    have hsub36 : (l.drop 3).take 3 ⊆ l.take 7 := by
      have h1 : (l.drop 3).take 3 = ((l.drop 3).take 4).take 3 := by
        rw [List.take_take]; norm_num
      have h2 : (l.drop 3).take 4 = (l.take 7).drop 3 := by
        rw [List.drop_take]
      intro x hx
      rw [h1] at hx
      have hx2 := List.take_subset 3 _ hx
      rw [h2] at hx2
      exact List.drop_subset _ _ hx2
    have hp : ∃ p, parseFloats (l.take 3) = some p :=
      (parseFloats_some_iff _).mpr fun t' ht' => hf t' (hsub3 ht')
    have hq : ∃ q, parseFloats ((l.drop 3).take 3) = some q :=
      (parseFloats_some_iff _).mpr fun t' ht' => hf t' (hsub36 ht')
    obtain ⟨p, hp⟩ := hp
    obtain ⟨q, hq⟩ := hq
    refine ⟨⟨toVec3 p, toVec3 q, pt⟩, ?_, ?_⟩
    · simp [parseOpLine, hp, hq, h6, htf]
    · simp [badOp, not_lt.mpr hpt0]

end Desktop

namespace Desktop

theorem loadCore_ok_iff (lines : List Line) :
    (∃ c, loadCore lines = .ok c) ↔ wellFormedCore lines := by
  cases lines with
  | nil =>
    constructor
    · rintro ⟨c, hc⟩
      simp [loadCore] at hc
    · rintro ⟨K, N, ⟨a, b, hab, -⟩, -⟩
      simp at hab
  | cons l0 rest =>
    constructor
    · rintro ⟨c, hc⟩
      simp only [loadCore] at hc
      cases hKN : parseKN l0 with
      | none => rw [hKN] at hc; simp at hc
      | some KN =>
        obtain ⟨K, N⟩ := KN
        rw [hKN] at hc
        simp only [] at hc
        by_cases hpos : K ≤ 0 ∨ N ≤ 0
        · rw [if_pos hpos] at hc; simp at hc
        · rw [if_neg hpos] at hc
          by_cases hlen : (l0 :: rest).length ≠ 1 + K.toNat + 6 + 1 + N.toNat
          · rw [if_pos hlen] at hc; simp at hc
          · rw [if_neg hlen] at hc
            cases hB : mapE parseBaseLine (((l0 :: rest).drop 1).take K.toNat) with
            | error e => rw [hB] at hc; simp at hc
            | ok bases =>
              rw [hB] at hc
              simp only [] at hc
              cases hJ : mapE parseJointLine (((l0 :: rest).drop (1 + K.toNat)).take 6) with
              | error e => rw [hJ] at hc; simp at hc
              | ok jps =>
                rw [hJ] at hc
                simp only [] at hc
                by_cases hJb : jps.any badJoint
                · rw [if_pos hJb] at hc; simp at hc
                · rw [if_neg hJb] at hc
                  cases hS : parseSafety (((l0 :: rest).drop (1 + K.toNat + 6)).headD []) with
                  | error e => rw [hS] at hc; simp at hc
                  | ok tcsd =>
                    obtain ⟨tc, sd⟩ := tcsd
                    rw [hS] at hc
                    simp only [] at hc
                    by_cases hSb : tc < 0 ∨ sd ≤ 0
                    · rw [if_pos hSb] at hc; simp at hc
                    · rw [if_neg hSb] at hc
                      cases hO : mapE parseOpLine
                          (((l0 :: rest).drop (1 + K.toNat + 6 + 1)).take N.toNat) with
                      | error e => rw [hO] at hc; simp at hc
                      | ok ops =>
                        rw [hO] at hc
                        simp only [] at hc
                        by_cases hOb : ops.any badOp
                        · rw [if_pos hOb] at hc; simp at hc
                        · push_neg at hpos
                          obtain ⟨a, b, hl0, ha, hb⟩ := (parseKN_some_iff l0 K N).mp hKN
                          refine ⟨K, N, ⟨a, b, by rw [List.head?_cons, hl0], ha, hb⟩,
                            hpos.1, hpos.2, not_not.mp hlen, ?_, ?_, ?_, ?_⟩
                          · intro l hl
                            obtain ⟨v, hv⟩ :=
                              (mapE_ok_iff' parseBaseLine _).mp ⟨bases, hB⟩ l hl
                            exact (parseBaseLine_ok_iff l).mp ⟨v, hv⟩
                          · intro l hl
                            have hJb' : jps.any badJoint = false := by
                              simpa using hJb
                            obtain ⟨jp, hjp, hgood⟩ :=
                              (mapE_ok_iff parseJointLine badJoint _).mp
                                ⟨jps, hJ, hJb'⟩ l hl
                            exact (parseJointLine_good_iff l).mp ⟨jp, hjp, hgood⟩
                          · exact (parseSafety_good_iff _).mp ⟨(tc, sd), hS, hSb⟩
                          · intro l hl
                            have hOb' : ops.any badOp = false := by
                              simpa using hOb
                            obtain ⟨op, hop, hgood⟩ :=
                              (mapE_ok_iff parseOpLine badOp _).mp ⟨ops, hO, hOb'⟩ l hl
                            exact (parseOpLine_good_iff l).mp ⟨op, hop, hgood⟩
    · rintro ⟨K, N, ⟨a, b, hab, ha, hb⟩, hK, hN, hlen, hbases, hjoints, hsafety, hops⟩
      rw [List.head?_cons, Option.some_inj] at hab
      have hKN : parseKN l0 = some (K, N) :=
        (parseKN_some_iff l0 K N).mpr ⟨a, b, hab, ha, hb⟩
      simp only [loadCore]
      rw [hKN]
      simp only []
      rw [if_neg (by push_neg; exact ⟨hK, hN⟩)]
      rw [if_neg (by simp [hlen])]
      obtain ⟨bases, hB⟩ := (mapE_ok_iff' parseBaseLine _).mpr
        (fun l hl => (parseBaseLine_ok_iff l).mpr (hbases l hl))
      rw [hB]
      simp only []
      obtain ⟨jps, hJ, hJb⟩ := (mapE_ok_iff parseJointLine badJoint _).mpr
        (fun l hl => (parseJointLine_good_iff l).mpr (hjoints l hl))
      rw [hJ]
      simp only []
      rw [if_neg (by simp [hJb])]
      obtain ⟨p, hS, hSb⟩ := (parseSafety_good_iff _).mpr hsafety
      obtain ⟨tc, sd⟩ := p
      rw [hS]
      simp only []
      rw [if_neg hSb]
      obtain ⟨ops, hO, hOb⟩ := (mapE_ok_iff parseOpLine badOp _).mpr
        (fun l hl => (parseOpLine_good_iff l).mpr (hops l hl))
      rw [hO]
      simp only []
      rw [if_neg (by simp [hOb])]
      exact ⟨_, rfl⟩

theorem load_from_lines_ok_iff (raw : List Line) :
    (∃ c, load_from_lines raw = .ok c) ↔ wellFormedInput raw :=
  loadCore_ok_iff _

end Desktop

/-! ## Arithmetic and trajectory helper lemmas -/

theorem pyTrunc_nonneg {x : ℝ} (h : 0 ≤ x) : 0 ≤ pyTrunc x := by
  rw [pyTrunc, if_pos h]
  exact Int.floor_nonneg.mpr h

theorem norm3_nonneg (v : Vec3) : 0 ≤ norm3 v := Real.sqrt_nonneg _

theorem norm3_self_sub (v : Vec3) : norm3 (v - v) = 0 := by
  simp [norm3, Vec3.sub_def]

theorem joint_time_zero (jp : List JointParams) (idx : ℕ)
    (h : 0 ≤ (jp.getD idx ⟨0, 0, 0, 0⟩).max_acceleration) :
    FullSched.joint_time jp 0 idx = 0 := by
  have ha : 0 ≤ radians (jp.getD idx ⟨0, 0, 0, 0⟩).max_acceleration := by
    rw [radians]
    exact div_nonneg (mul_nonneg h Real.pi_pos.le) (by norm_num)
  simp only [FullSched.joint_time, abs_zero]
  rw [if_pos ?hge]
  case hge =>
    have hsq := sq_nonneg (radians (jp.getD idx ⟨0, 0, 0, 0⟩).max_velocity /
      radians (jp.getD idx ⟨0, 0, 0, 0⟩).max_acceleration)
    nlinarith [mul_nonneg ha hsq]
  rw [zero_div, Real.sqrt_zero, mul_zero]

theorem opStep_wps_eq (st : Vec3 × ℤ × List Waypoint) (op : Operation) :
    (Desktop.opStep st op).2.2 =
      st.2.2 ++
        [wpAt (st.2.1 + pyTrunc (norm3 (op.pick_point - st.1) / 0.3 * 1000)) op.pick_point,
         wpAt (st.2.1 + pyTrunc (norm3 (op.pick_point - st.1) / 0.3 * 1000) +
           pyTrunc op.process_time) op.pick_point,
         wpAt (st.2.1 + pyTrunc (norm3 (op.pick_point - st.1) / 0.3 * 1000) +
           pyTrunc op.process_time +
           pyTrunc (norm3 (op.place_point - op.pick_point) / 0.3 * 1000)) op.place_point] := rfl

theorem foldl_opStep_head (ops : List Operation) :
    ∀ (st : Vec3 × ℤ × List Waypoint) (w : Waypoint),
      (∃ rest, st.2.2 = w :: rest) →
      ∃ rest2, (ops.foldl Desktop.opStep st).2.2 = w :: rest2 := by
  induction ops with
  | nil => exact fun st w h => h
  | cons op more ih =>
    rintro st w ⟨rest, hw⟩
    rw [List.foldl_cons]
    refine ih (Desktop.opStep st op) w
      ⟨rest ++
        [wpAt (st.2.1 + pyTrunc (norm3 (op.pick_point - st.1) / 0.3 * 1000)) op.pick_point,
         wpAt (st.2.1 + pyTrunc (norm3 (op.pick_point - st.1) / 0.3 * 1000) +
           pyTrunc op.process_time) op.pick_point,
         wpAt (st.2.1 + pyTrunc (norm3 (op.pick_point - st.1) / 0.3 * 1000) +
           pyTrunc op.process_time +
           pyTrunc (norm3 (op.place_point - op.pick_point) / 0.3 * 1000)) op.place_point],
       ?_⟩
    rw [opStep_wps_eq, hw]
    rfl

theorem foldl_opStep_last (ops : List Operation) :
    ∀ (st : Vec3 × ℤ × List Waypoint), ops ≠ [] →
      (ops.foldl Desktop.opStep st).1 = (ops.getLast?.getD opDefault).place_point ∧
      (ops.foldl Desktop.opStep st).2.2.getLast? =
        some (wpAt (ops.foldl Desktop.opStep st).2.1 (ops.foldl Desktop.opStep st).1) := by
  induction ops with
  | nil => exact fun st h => absurd rfl h
  | cons op more ih =>
    intro st h
    rw [List.foldl_cons]
    cases more with
    | nil =>
      simp only [List.foldl_nil]
      refine ⟨rfl, ?_⟩
      rw [opStep_wps_eq]
      simp [List.getLast?_append]
      rfl
    | cons op2 rest2 =>
      rw [List.getLast?_cons_cons]
      exact ih (Desktop.opStep st op) (by simp)

theorem gen_single_eq (base pick place : Vec3) (pt : ℝ) :
    Desktop.generate_trajectory_for_robot [base] 0 [⟨pick, place, pt⟩] =
      [wpAt 0 (get_home_position base),
       wpAt (0 + pyTrunc (norm3 (pick - get_home_position base) / 0.3 * 1000)) pick,
       wpAt (0 + pyTrunc (norm3 (pick - get_home_position base) / 0.3 * 1000) +
         pyTrunc pt) pick,
       wpAt (0 + pyTrunc (norm3 (pick - get_home_position base) / 0.3 * 1000) +
         pyTrunc pt + pyTrunc (norm3 (place - pick) / 0.3 * 1000)) place,
       wpAt (0 + pyTrunc (norm3 (pick - get_home_position base) / 0.3 * 1000) +
         pyTrunc pt + pyTrunc (norm3 (place - pick) / 0.3 * 1000) +
         pyTrunc (norm3 (get_home_position base - place) / 0.3 * 1000))
         (get_home_position base)] := rfl

theorem gen_single_rest (base pick place : Vec3) (pt : ℝ)
    (h1 : get_home_position base ≠ pick) (h2 : pick ≠ place)
    (h3 : get_home_position base ≠ place) :
    restTimeAt pick (Desktop.generate_trajectory_for_robot [base] 0 [⟨pick, place, pt⟩]) =
        pyTrunc pt ∧
      restTimeAt place (Desktop.generate_trajectory_for_robot [base] 0 [⟨pick, place, pt⟩]) =
        0 := by
  rw [gen_single_eq]
  constructor
  · simp only [restTimeAt]
    rw [if_neg (fun hc => h1 hc.1), if_pos ⟨wpAt_pos _ _, wpAt_pos _ _⟩,
      if_neg (fun hc => h2 hc.2.symm), if_neg (fun hc => h2 hc.1.symm)]
    simp only [wpAt]
    omega
  · simp only [restTimeAt]
    rw [if_neg (fun hc => h2 hc.2), if_neg (fun hc => h2 hc.1),
      if_neg (fun hc => h2 hc.1), if_neg (fun hc => h3 hc.2)]
    omega

theorem bestRobot_pair (b p : Vec3) : Desktop.bestRobot [b, b] p = 0 := by
  have henum : ([b, b] : List Vec3).enum = [(0, b), (1, b)] := rfl
  rw [Desktop.bestRobot, henum]
  simp only [List.foldl_cons, List.foldl_nil]
  rw [if_neg (lt_irrefl _)]

theorem assign_pair (b : Vec3) (op : Operation) :
    Desktop.assign_operations_to_robots 2 [b, b] [op] = [[op], []] := by
  rw [Desktop.assign_operations_to_robots]
  simp only [List.foldl_cons, List.foldl_nil]
  rw [bestRobot_pair]
  rfl

theorem stC1_schedules :
    (Desktop.solve stC1).1.schedules =
      [Desktop.generate_trajectory_for_robot [⟨0, 0, 0⟩, ⟨0, 0, 0⟩] 0 [opC1], []] := by
  simp only [Desktop.solve, stC1]
  rw [assign_pair]
  rfl

theorem stC1_emitted :
    Desktop.emittedOf stC1 =
      [Desktop.generate_trajectory_for_robot [⟨0, 0, 0⟩, ⟨0, 0, 0⟩] 0 [opC1],
       [wpAt 0 (get_home_position ⟨0, 0, 0⟩)]] := by
  rw [Desktop.emittedOf, stC1_schedules]
  rfl

/-! ## Claim theorems -/

/-- C2: for every joint with positive peak velocity and acceleration
(both converted to radians) and every angular displacement, the
`joint_time` of `test.py` equals the spec's trapezoidal-profile
duration: `2 sqrt(|delta| / a)` in the triangular case
`2 s_acc >= |delta|` (with `t_acc = v / a`, `s_acc = a t_acc^2 / 2`),
and `2 t_acc + (|delta| - 2 s_acc) / v` otherwise. -/
theorem C2_trapezoid_law (jp : List JointParams) (idx : ℕ) (delta : ℝ)
    (_hv : 0 < radians (jp.getD idx ⟨0, 0, 0, 0⟩).max_velocity)
    (_ha : 0 < radians (jp.getD idx ⟨0, 0, 0, 0⟩).max_acceleration) :
    FullSched.joint_time jp delta idx =
      trapezoidSpecTime (radians (jp.getD idx ⟨0, 0, 0, 0⟩).max_velocity)
        (radians (jp.getD idx ⟨0, 0, 0, 0⟩).max_acceleration) delta := rfl

/-- Witness for C2 at the spec's wide joint `(-170, 170, 90, 45)` and a
unit displacement. -/
theorem C2_witness :
    (0 < radians (([jpWide].getD 0 ⟨0, 0, 0, 0⟩).max_velocity) ∧
        0 < radians (([jpWide].getD 0 ⟨0, 0, 0, 0⟩).max_acceleration)) ∧
      FullSched.joint_time [jpWide] 1 0 =
        trapezoidSpecTime (radians (([jpWide].getD 0 ⟨0, 0, 0, 0⟩).max_velocity))
          (radians (([jpWide].getD 0 ⟨0, 0, 0, 0⟩).max_acceleration)) 1 := by
  have hv : 0 < radians (([jpWide].getD 0 ⟨0, 0, 0, 0⟩).max_velocity) := by
    show 0 < radians 90
    rw [radians]
    exact div_pos (mul_pos (by norm_num) Real.pi_pos) (by norm_num)
  have ha : 0 < radians (([jpWide].getD 0 ⟨0, 0, 0, 0⟩).max_acceleration) := by
    show 0 < radians 45
    rw [radians]
    exact div_pos (mul_pos (by norm_num) Real.pi_pos) (by norm_num)
  exact ⟨⟨hv, ha⟩, C2_trapezoid_law [jpWide] 0 1 hv ha⟩

/-- C3 counterexample: the IK oracle fails at the start point, yet
`move_time` of `test.py` returns a finite 0 ms, not +∞ — Python's `or`
silently substitutes the given start joints for the failed solve. -/
theorem C3_counterexample :
    ikCex ⟨0, 0, 0⟩ (List.replicate 6 0) = none ∧
      FullSched.move_time ikCex jp6 ⟨0, 0, 0⟩ ⟨1, 0, 0⟩ (List.replicate 6 0) = some 0 := by
  have hstart : ikCex ⟨0, 0, 0⟩ (List.replicate 6 0) = none := by
    simp only [ikCex]
    rw [if_neg (fun hc => by have hx := congrArg Vec3.x hc; norm_num at hx)]
  have hend : ikCex ⟨1, 0, 0⟩ (List.replicate 6 0) = some (List.replicate 6 0) := by
    simp [ikCex]
  refine ⟨hstart, ?_⟩
  have hrad : radians 0 = 0 := by rw [radians]; ring
  simp only [FullSched.move_time, hstart, Option.getD_none, hend]
  rw [show List.range 6 = [0, 1, 2, 3, 4, 5] from rfl]
  simp only [List.map_cons, List.map_nil, sub_self, hrad, abs_zero]
  rw [joint_time_zero jp6 0 (by show (0:ℝ) ≤ 45; norm_num),
    joint_time_zero jp6 1 (by show (0:ℝ) ≤ 45; norm_num),
    joint_time_zero jp6 2 (by show (0:ℝ) ≤ 45; norm_num),
    joint_time_zero jp6 3 (by show (0:ℝ) ≤ 45; norm_num),
    joint_time_zero jp6 4 (by show (0:ℝ) ≤ 45; norm_num),
    joint_time_zero jp6 5 (by show (0:ℝ) ≤ 45; norm_num)]
  norm_num [FullSched.listMax]

/-- C3 (amended): the move time of `test.py` is +∞ (`none`) exactly when
the IK solve at the END point — seeded with the start solution, or with
the start joints when the start solve failed — fails; a start-point IK
failure alone never produces +∞. -/
theorem C3_move_time_inf_iff (ik : FullSched.IkOracle) (jp : List JointParams)
    (start_pt end_pt : Vec3) (start_joints : List ℝ) :
    FullSched.move_time ik jp start_pt end_pt start_joints = none ↔
      ik end_pt ((ik start_pt start_joints).getD start_joints) = none := by
  simp only [FullSched.move_time]
  cases h : ik end_pt ((ik start_pt start_joints).getD start_joints) <;> simp [h]

theorem resolveLoop_of_check (tool_clearance safe_distance : ℝ)
    (s : List (List Waypoint))
    (h : FullSched.check_collisions tool_clearance safe_distance s = true) :
    ∀ n, FullSched.resolveLoop tool_clearance safe_distance n s = s := by
  intro n
  cases n with
  | zero => rfl
  | succ m => rw [FullSched.resolveLoop, if_pos h]

/-- C8: applying `resolve_collisions` of `test.py` to a schedule set
that already passes `check_collisions` (every sampled pairwise distance
at least `safe_distance + 2 * tool_clearance`) returns the schedules
unchanged — the resolver is a no-op on collision-free input. -/
theorem C8_resolver_noop (tool_clearance safe_distance : ℝ)
    (schedules : List (List Waypoint))
    (h : FullSched.check_collisions tool_clearance safe_distance schedules = true) :
    FullSched.resolve_collisions tool_clearance safe_distance schedules =
      .ok schedules := by
  simp only [FullSched.resolve_collisions]
  rw [resolveLoop_of_check tool_clearance safe_distance schedules h 200, if_pos h]

/-- Witness for C8: a one-robot schedule set is vacuously
collision-free and survives the resolver untouched. -/
theorem C8_witness :
    FullSched.check_collisions 0.1 0.2 [[⟨0, 0, 0, 0⟩]] = true ∧
      FullSched.resolve_collisions 0.1 0.2 [[⟨0, 0, 0, 0⟩]] =
        .ok [[⟨0, 0, 0, 0⟩]] := by
  have h : FullSched.check_collisions 0.1 0.2 [[⟨0, 0, 0, 0⟩]] = true := by
    simp [FullSched.check_collisions]
  exact ⟨h, C8_resolver_noop 0.1 0.2 _ h⟩

/-- C1 counterexample: the desktop `solve` emits, for two robots based
at the same point, a plan in which both robots' interpolated TCP
positions coincide at the sampled instant t = 0, so their distance (0)
is below `safe_distance + 2 * tool_clearance = 0.4` — the desktop solver
performs no collision check at all. -/
theorem C1_counterexample :
    dist3 (FullSched.get_pos_at ((Desktop.emittedOf stC1).getD 0 []) 0)
        (FullSched.get_pos_at ((Desktop.emittedOf stC1).getD 1 []) 0) <
      stC1.safe_distance + 2 * stC1.tool_clearance := by
  rw [stC1_emitted]
  have hg : ∃ rest, Desktop.generate_trajectory_for_robot [⟨0, 0, 0⟩, ⟨0, 0, 0⟩] 0 [opC1] =
      wpAt 0 (get_home_position ⟨0, 0, 0⟩) :: rest := ⟨_, rfl⟩
  obtain ⟨rest, hr⟩ := hg
  rw [show ([Desktop.generate_trajectory_for_robot [⟨0, 0, 0⟩, ⟨0, 0, 0⟩] 0 [opC1],
      [wpAt 0 (get_home_position ⟨0, 0, 0⟩)]].getD 0 []) =
    Desktop.generate_trajectory_for_robot [⟨0, 0, 0⟩, ⟨0, 0, 0⟩] 0 [opC1] from rfl]
  rw [show ([Desktop.generate_trajectory_for_robot [⟨0, 0, 0⟩, ⟨0, 0, 0⟩] 0 [opC1],
      [wpAt 0 (get_home_position ⟨0, 0, 0⟩)]].getD 1 []) =
    [wpAt 0 (get_home_position ⟨0, 0, 0⟩)] from rfl]
  rw [hr]
  have h0 : FullSched.get_pos_at (wpAt 0 (get_home_position ⟨0, 0, 0⟩) :: rest) 0 =
      get_home_position ⟨0, 0, 0⟩ := by
    simp only [FullSched.get_pos_at]
    rw [if_pos (show (0:ℤ) ≤ (wpAt 0 (get_home_position ⟨0, 0, 0⟩)).time_ms from le_refl 0)]
    exact wpAt_pos _ _
  have h1 : FullSched.get_pos_at [wpAt 0 (get_home_position ⟨0, 0, 0⟩)] 0 =
      get_home_position ⟨0, 0, 0⟩ := by
    simp only [FullSched.get_pos_at]
    rw [if_pos (show (0:ℤ) ≤ (wpAt 0 (get_home_position ⟨0, 0, 0⟩)).time_ms from le_refl 0)]
    exact wpAt_pos _ _
  rw [h0, h1, dist3, norm3_self_sub]
  show (0 : ℝ) < stC1.safe_distance + 2 * stC1.tool_clearance
  show (0 : ℝ) < 0.2 + 2 * 0.1
  norm_num

/-- C1 (amended): when `test.py`'s `solve` runs its collision stage
(`num_robots > 1`) and the stage returns a schedule set, that set passes
`check_collisions`: the interpolated pairwise TCP distance is at least
`safe_distance + 2 * tool_clearance` at every 5 ms sample of each pair's
overlapping active window. (The desktop `solve` emits plans with no such
check, as the counterexample shows; instants outside a pair's window
overlap are not sampled.) -/
theorem C1_collision_stage_post (num_robots : ℕ) (tool_clearance safe_distance : ℝ)
    (schedules schedules' : List (List Waypoint))
    (hK : 1 < num_robots)
    (h : FullSched.collisionStage num_robots tool_clearance safe_distance schedules =
      .ok schedules') :
    FullSched.check_collisions tool_clearance safe_distance schedules' = true := by
  rw [FullSched.collisionStage] at h
  by_cases hchk : FullSched.check_collisions tool_clearance safe_distance schedules = false
  · rw [if_pos ⟨hK, hchk⟩] at h
    simp only [FullSched.resolve_collisions] at h
    by_cases hfin : FullSched.check_collisions tool_clearance safe_distance
        (FullSched.resolveLoop tool_clearance safe_distance 200 schedules) = true
    · rw [if_pos hfin] at h
      obtain rfl : FullSched.resolveLoop tool_clearance safe_distance 200 schedules =
          schedules' := by simpa using h
      exact hfin
    · rw [if_neg hfin] at h
      simp at h
  · rw [if_neg (fun hc => hchk hc.2)] at h
    obtain rfl : schedules = schedules' := by simpa using h
    simpa using hchk

/-- Witness for the amended C1: two parked robots 3 m apart pass the
check, and the collision stage returns their schedules unchanged. -/
theorem C1_witness :
    (1 < 2 ∧
        FullSched.collisionStage 2 0.1 0.2 [[⟨0, 0, 0, 0⟩], [⟨0, 3, 0, 0⟩]] =
          .ok [[⟨0, 0, 0, 0⟩], [⟨0, 3, 0, 0⟩]]) ∧
      FullSched.check_collisions 0.1 0.2 [[⟨0, 0, 0, 0⟩], [⟨0, 3, 0, 0⟩]] = true := by
  have hd : dist3 (⟨0, 0, 0⟩ : Vec3) ⟨3, 0, 0⟩ = 3 := by
    rw [dist3, norm3, Vec3.sub_def]
    rw [show ((0:ℝ) - 3) ^ 2 + ((0:ℝ) - 0) ^ 2 + ((0:ℝ) - 0) ^ 2 = 3 ^ 2 by norm_num]
    exact Real.sqrt_sq (by norm_num)
  have hpair : FullSched.pairOk (0.2 + 2 * 0.1) [(⟨0, 0, 0, 0⟩ : Waypoint)]
      [(⟨0, 3, 0, 0⟩ : Waypoint)] = true := by
    simp only [FullSched.pairOk]
    rw [if_neg (by decide)]
    rw [show FullSched.sampleTimes
        (max (FullSched.window [(⟨0, 0, 0, 0⟩ : Waypoint)]).1
          (FullSched.window [(⟨0, 3, 0, 0⟩ : Waypoint)]).1)
        (min (FullSched.window [(⟨0, 0, 0, 0⟩ : Waypoint)]).2
          (FullSched.window [(⟨0, 3, 0, 0⟩ : Waypoint)]).2) = [0] from rfl]
    simp only [List.all_cons, List.all_nil]
    rw [show FullSched.get_pos_at [(⟨0, 0, 0, 0⟩ : Waypoint)] 0 = (⟨0, 0, 0⟩ : Vec3) from rfl,
      show FullSched.get_pos_at [(⟨0, 3, 0, 0⟩ : Waypoint)] 0 = (⟨3, 0, 0⟩ : Vec3) from rfl,
      hd, if_neg (by norm_num : ¬((3:ℝ) < 0.2 + 2 * 0.1))]
    rfl
  have hchk : FullSched.check_collisions 0.1 0.2 [[⟨0, 0, 0, 0⟩], [⟨0, 3, 0, 0⟩]] = true := by
    rw [show FullSched.check_collisions 0.1 0.2 [[⟨0, 0, 0, 0⟩], [⟨0, 3, 0, 0⟩]] =
      ((FullSched.pairOk (0.2 + 2 * 0.1) [(⟨0, 0, 0, 0⟩ : Waypoint)]
        [(⟨0, 3, 0, 0⟩ : Waypoint)] && true) && true) from rfl]
    rw [hpair]
    rfl
  have hstage : FullSched.collisionStage 2 0.1 0.2 [[⟨0, 0, 0, 0⟩], [⟨0, 3, 0, 0⟩]] =
      .ok [[⟨0, 0, 0, 0⟩], [⟨0, 3, 0, 0⟩]] := by
    rw [FullSched.collisionStage, if_neg (by simp [hchk])]
  exact ⟨⟨by norm_num, hstage⟩,
    C1_collision_stage_post 2 0.1 0.2 _ _ (by norm_num) hstage⟩

/-- C9: the desktop `run_scheduler` is deterministic and keeps no state
across runs — the solver's output depends only on the fields the loader
sets; pre-existing values of the mutable working fields (`schedules`,
`joint_schedules`, `unreachable_ops`) never influence the emitted plan,
and `run_scheduler` always starts from a freshly constructed
scheduler. -/
theorem C9_no_hidden_state (input_lines : List Line)
    (junk_schedules : List (List Waypoint))
    (junk_joint_schedules : List (List (List ℝ)))
    (junk_unreachable : List ℕ) :
    (Desktop.load_from_lines input_lines).map
        (fun c => (Desktop.solve
          (Desktop.mkState c junk_schedules junk_joint_schedules junk_unreachable)).2) =
      Desktop.run_scheduler input_lines := by
  rw [Desktop.run_scheduler]
  cases h : Desktop.load_from_lines input_lines
  · rfl
  · rfl

/-- C4: evaluation at the failing input. The pick point `(3,3,3)` is
`sqrt 27 > 1.7` m from the only base, so `is_reachable` rejects it for
every possible IK outcome; yet the desktop assignment hands the
operation to robot 1 without any reachability check, and the generated
schedule for that robot is emitted (it starts with the usual home
waypoint) instead of the run failing with an Unreachable error. -/
theorem C4_code_bug_eval :
    (∀ ik : Vec3 → Option (List ℝ), Desktop.is_reachable ik ⟨3, 3, 3⟩ ⟨0, 0, 0⟩ = false) ∧
      Desktop.assign_operations_to_robots 1 [⟨0, 0, 0⟩] [opFar] = [[opFar]] ∧
      (Desktop.generate_trajectory_for_robot [⟨0, 0, 0⟩] 0 [opFar]).head? =
        some (wpAt 0 (get_home_position ⟨0, 0, 0⟩)) := by
  refine ⟨?_, rfl, rfl⟩
  intro ik
  have hgt : Desktop.max_reach < dist3 ⟨3, 3, 3⟩ ⟨0, 0, 0⟩ := by
    rw [Desktop.max_reach, dist3, norm3, Vec3.sub_def]
    rw [show ((3:ℝ) - 0) ^ 2 + ((3:ℝ) - 0) ^ 2 + ((3:ℝ) - 0) ^ 2 = 27 by norm_num]
    rw [show (1.7 : ℝ) = |1.7| from (abs_of_pos (by norm_num)).symm] at *
    exact (Real.lt_sqrt (by norm_num)).mpr (by norm_num)
  rw [Desktop.is_reachable, if_pos hgt]

/-- C5 counterexample: in the desktop trajectory for one assigned
operation with `process_time = 500` ms, the total time at rest on the
place point is 0 ms — farther than 1 ms from the 500 ms the claim
requires (the desktop generator emits a single waypoint at place and
never advances time there). -/
theorem C5_counterexample :
    1 < |restTimeAt ⟨2, 0, 0⟩
        (Desktop.generate_trajectory_for_robot [⟨0, 0, 0⟩] 0 [op5]) - 500| := by
  have h1 : get_home_position ⟨0, 0, 0⟩ ≠ (⟨1, 0, 0⟩ : Vec3) := by
    rw [get_home_position_eq]
    intro hc
    have hx := congrArg Vec3.x hc
    norm_num at hx
  have h2 : (⟨1, 0, 0⟩ : Vec3) ≠ (⟨2, 0, 0⟩ : Vec3) := by
    intro hc
    have hx := congrArg Vec3.x hc
    norm_num at hx
  have h3 : get_home_position ⟨0, 0, 0⟩ ≠ (⟨2, 0, 0⟩ : Vec3) := by
    rw [get_home_position_eq]
    intro hc
    have hx := congrArg Vec3.x hc
    norm_num at hx
  have h := gen_single_rest ⟨0, 0, 0⟩ ⟨1, 0, 0⟩ ⟨2, 0, 0⟩ 500 h1 h2 h3
  rw [show (op5 : Operation) = ⟨⟨1, 0, 0⟩, ⟨2, 0, 0⟩, 500⟩ from rfl, h.2]
  decide

/-- C5 (amended): for a single assigned operation the desktop trajectory
dwells exactly `int(process_time)` ms at rest on the pick point, but
emits only ONE waypoint at the place point: the time at rest there is 0,
not `process_time`. (In `test.py`'s generator the place dwell does
exist: a waypoint at place is emitted on arrival and again after
`process_time`.) -/
theorem C5_desktop_dwell (base pick place : Vec3) (pt : ℝ)
    (h1 : get_home_position base ≠ pick) (h2 : pick ≠ place)
    (h3 : get_home_position base ≠ place) :
    restTimeAt pick
        (Desktop.generate_trajectory_for_robot [base] 0 [⟨pick, place, pt⟩]) =
        pyTrunc pt ∧
      restTimeAt place
        (Desktop.generate_trajectory_for_robot [base] 0 [⟨pick, place, pt⟩]) = 0 :=
  gen_single_rest base pick place pt h1 h2 h3

/-- Witness for the amended C5 at the concrete single-operation
scenario. -/
theorem C5_witness :
    (get_home_position ⟨0, 0, 0⟩ ≠ (⟨1, 0, 0⟩ : Vec3) ∧
        (⟨1, 0, 0⟩ : Vec3) ≠ (⟨2, 0, 0⟩ : Vec3) ∧
        get_home_position ⟨0, 0, 0⟩ ≠ (⟨2, 0, 0⟩ : Vec3)) ∧
      restTimeAt ⟨1, 0, 0⟩ (Desktop.generate_trajectory_for_robot [⟨0, 0, 0⟩] 0
          [⟨⟨1, 0, 0⟩, ⟨2, 0, 0⟩, 500⟩]) = pyTrunc 500 ∧
        restTimeAt ⟨2, 0, 0⟩ (Desktop.generate_trajectory_for_robot [⟨0, 0, 0⟩] 0
          [⟨⟨1, 0, 0⟩, ⟨2, 0, 0⟩, 500⟩]) = 0 := by
  have h1 : get_home_position ⟨0, 0, 0⟩ ≠ (⟨1, 0, 0⟩ : Vec3) := by
    rw [get_home_position_eq]
    intro hc
    have hx := congrArg Vec3.x hc
    norm_num at hx
  have h2 : (⟨1, 0, 0⟩ : Vec3) ≠ (⟨2, 0, 0⟩ : Vec3) := by
    intro hc
    have hx := congrArg Vec3.x hc
    norm_num at hx
  have h3 : get_home_position ⟨0, 0, 0⟩ ≠ (⟨2, 0, 0⟩ : Vec3) := by
    rw [get_home_position_eq]
    intro hc
    have hx := congrArg Vec3.x hc
    norm_num at hx
  exact ⟨⟨h1, h2, h3⟩, C5_desktop_dwell ⟨0, 0, 0⟩ ⟨1, 0, 0⟩ ⟨2, 0, 0⟩ 500 h1 h2 h3⟩

/-- C6 counterexample: in the concrete two-robot run, robot 2 has no
operations; the single waypoint the desktop solver emits for it sits at
the HOME TCP position, which differs from the base point `(0,0,0)` the
claim promises. -/
theorem C6_counterexample :
    (Desktop.emittedOf stC1).getD 1 [] = [wpAt 0 (get_home_position ⟨0, 0, 0⟩)] ∧
      wpAt 0 (get_home_position ⟨0, 0, 0⟩) ≠ wpAt 0 ⟨0, 0, 0⟩ := by
  refine ⟨by rw [stC1_emitted]; rfl, ?_⟩
  intro hc
  have hx := congrArg Waypoint.x hc
  rw [show (wpAt 0 (get_home_position ⟨0, 0, 0⟩)).x = (get_home_position ⟨0, 0, 0⟩).x
    from rfl, show (wpAt 0 (⟨0, 0, 0⟩ : Vec3)).x = (0 : ℝ) from rfl] at hx
  rw [get_home_position_eq] at hx
  norm_num at hx

theorem getD_map_range {α : Type} (K r : ℕ) (h : r < K) (g : ℕ → α) (d : α) :
    ((List.range K).map g).getD r d = g r := by
  rw [List.getD_eq_getElem?_getD, List.getElem?_map, List.getElem?_range h]
  rfl

/-- C6 (amended): in the desktop solver, every robot assigned no
operations contributes exactly one waypoint to the emitted plan, at time
0 at its HOME TCP position (forward kinematics of the home joint vector
offset by the base), not at the base point itself. (`test.py`'s solve
emits the base point for such robots, as the claim stated.) -/
theorem C6_empty_robot_waypoint (st : Desktop.SchedulerState) (r : ℕ)
    (hr : r < st.num_robots)
    (ha : (Desktop.assign_operations_to_robots st.num_robots st.robot_bases
        st.operations).getD r [] = []) :
    (Desktop.emittedOf st).getD r [] =
      [wpAt 0 (get_home_position (st.robot_bases.getD r ⟨0, 0, 0⟩))] := by
  rw [Desktop.emittedOf]
  rw [show (Desktop.solve st).1.schedules =
      (List.range st.num_robots).map (fun r2 =>
        Desktop.generate_trajectory_for_robot st.robot_bases r2
          ((Desktop.assign_operations_to_robots st.num_robots st.robot_bases
            st.operations).getD r2 [])) from rfl]
  rw [Desktop.emittedWaypoints]
  rw [getD_map_range _ _ hr]
  rw [getD_map_range _ _ hr, ha]
  rfl

/-- Witness for the amended C6 at the concrete two-robot run. -/
theorem C6_witness :
    (1 < stC1.num_robots ∧
        (Desktop.assign_operations_to_robots stC1.num_robots stC1.robot_bases
          stC1.operations).getD 1 [] = []) ∧
      (Desktop.emittedOf stC1).getD 1 [] =
        [wpAt 0 (get_home_position (stC1.robot_bases.getD 1 ⟨0, 0, 0⟩))] := by
  have hr : 1 < stC1.num_robots := by norm_num [stC1]
  have ha : (Desktop.assign_operations_to_robots stC1.num_robots stC1.robot_bases
      stC1.operations).getD 1 [] = [] := by
    simp only [stC1]
    rw [assign_pair]
    rfl
  exact ⟨⟨hr, ha⟩, C6_empty_robot_waypoint stC1 1 hr ha⟩

/-- C10: for a robot with a non-empty operation list, the desktop
trajectory starts at time 0 at the robot's home TCP position (forward
kinematics of the fixed home joint vector offset by the base — and that
point is never the base itself), and after the last operation's place
point it appends one extra waypoint back at that same home position,
whose timestamp extends the robot's finishing time by the non-negative
truncated return-move duration. -/
theorem C10_home_roundtrip (robot_bases : List Vec3) (rid : ℕ) (ops : List Operation)
    (h : ops ≠ []) :
    (Desktop.generate_trajectory_for_robot robot_bases rid ops).head? =
        some (wpAt 0 (get_home_position (robot_bases.getD rid ⟨0, 0, 0⟩))) ∧
      get_home_position (robot_bases.getD rid ⟨0, 0, 0⟩) ≠ robot_bases.getD rid ⟨0, 0, 0⟩ ∧
      ∃ body t_pre,
        Desktop.generate_trajectory_for_robot robot_bases rid ops =
          body ++ [wpAt (t_pre +
              pyTrunc (norm3 (get_home_position (robot_bases.getD rid ⟨0, 0, 0⟩) -
                (ops.getLast?.getD opDefault).place_point) / 0.3 * 1000))
            (get_home_position (robot_bases.getD rid ⟨0, 0, 0⟩))] ∧
        body.getLast? = some (wpAt t_pre (ops.getLast?.getD opDefault).place_point) ∧
        t_pre ≤ t_pre +
          pyTrunc (norm3 (get_home_position (robot_bases.getD rid ⟨0, 0, 0⟩) -
            (ops.getLast?.getD opDefault).place_point) / 0.3 * 1000) := by
  obtain ⟨op, rest, rfl⟩ : ∃ op rest, ops = op :: rest := by
    cases ops with
    | nil => exact absurd rfl h
    | cons op rest => exact ⟨op, rest, rfl⟩
  have hgen : Desktop.generate_trajectory_for_robot robot_bases rid (op :: rest) =
      ((op :: rest).foldl Desktop.opStep
          (get_home_position (robot_bases.getD rid ⟨0, 0, 0⟩), 0,
            [wpAt 0 (get_home_position (robot_bases.getD rid ⟨0, 0, 0⟩))])).2.2 ++
        [wpAt (((op :: rest).foldl Desktop.opStep
              (get_home_position (robot_bases.getD rid ⟨0, 0, 0⟩), 0,
                [wpAt 0 (get_home_position (robot_bases.getD rid ⟨0, 0, 0⟩))])).2.1 +
            pyTrunc (norm3 (get_home_position (robot_bases.getD rid ⟨0, 0, 0⟩) -
              ((op :: rest).foldl Desktop.opStep
                (get_home_position (robot_bases.getD rid ⟨0, 0, 0⟩), 0,
                  [wpAt 0 (get_home_position (robot_bases.getD rid ⟨0, 0, 0⟩))])).1) /
              0.3 * 1000))
          (get_home_position (robot_bases.getD rid ⟨0, 0, 0⟩))] := rfl
  obtain ⟨hlast1, hlast2⟩ := foldl_opStep_last (op :: rest)
    (get_home_position (robot_bases.getD rid ⟨0, 0, 0⟩), 0,
      [wpAt 0 (get_home_position (robot_bases.getD rid ⟨0, 0, 0⟩))]) (by simp)
  obtain ⟨rest2, hhead⟩ := foldl_opStep_head (op :: rest)
    (get_home_position (robot_bases.getD rid ⟨0, 0, 0⟩), 0,
      [wpAt 0 (get_home_position (robot_bases.getD rid ⟨0, 0, 0⟩))])
    (wpAt 0 (get_home_position (robot_bases.getD rid ⟨0, 0, 0⟩))) ⟨[], rfl⟩
  have hnonneg : (0 : ℤ) ≤
      pyTrunc (norm3 (get_home_position (robot_bases.getD rid ⟨0, 0, 0⟩) -
        ((op :: rest).getLast?.getD opDefault).place_point) / 0.3 * 1000) :=
    pyTrunc_nonneg (mul_nonneg (div_nonneg (norm3_nonneg _) (by norm_num)) (by norm_num))
  refine ⟨?_, get_home_position_ne_base _, ?_⟩
  · rw [hgen, hhead]
    rfl
  · refine ⟨((op :: rest).foldl Desktop.opStep
        (get_home_position (robot_bases.getD rid ⟨0, 0, 0⟩), 0,
          [wpAt 0 (get_home_position (robot_bases.getD rid ⟨0, 0, 0⟩))])).2.2,
      ((op :: rest).foldl Desktop.opStep
        (get_home_position (robot_bases.getD rid ⟨0, 0, 0⟩), 0,
          [wpAt 0 (get_home_position (robot_bases.getD rid ⟨0, 0, 0⟩))])).2.1, ?_, ?_, ?_⟩
    · rw [hgen, hlast1]
    · rw [hlast2, hlast1]
    · exact le_add_of_nonneg_right hnonneg

/-- Witness for C10 at a one-robot, one-operation scenario. -/
theorem C10_witness :
    (([op5] : List Operation) ≠ []) ∧
      ((Desktop.generate_trajectory_for_robot [⟨0, 0, 0⟩] 0 [op5]).head? =
          some (wpAt 0 (get_home_position (([⟨0, 0, 0⟩] : List Vec3).getD 0 ⟨0, 0, 0⟩))) ∧
        get_home_position (([⟨0, 0, 0⟩] : List Vec3).getD 0 ⟨0, 0, 0⟩) ≠
          ([⟨0, 0, 0⟩] : List Vec3).getD 0 ⟨0, 0, 0⟩ ∧
        ∃ body t_pre,
          Desktop.generate_trajectory_for_robot [⟨0, 0, 0⟩] 0 [op5] =
            body ++ [wpAt (t_pre +
                pyTrunc (norm3 (get_home_position (([⟨0, 0, 0⟩] : List Vec3).getD 0 ⟨0, 0, 0⟩) -
                  (([op5] : List Operation).getLast?.getD opDefault).place_point) / 0.3 * 1000))
              (get_home_position (([⟨0, 0, 0⟩] : List Vec3).getD 0 ⟨0, 0, 0⟩))] ∧
          body.getLast? =
            some (wpAt t_pre (([op5] : List Operation).getLast?.getD opDefault).place_point) ∧
          t_pre ≤ t_pre +
            pyTrunc (norm3 (get_home_position (([⟨0, 0, 0⟩] : List Vec3).getD 0 ⟨0, 0, 0⟩) -
              (([op5] : List Operation).getLast?.getD opDefault).place_point) / 0.3 * 1000)) :=
  ⟨by simp, C10_home_roundtrip [⟨0, 0, 0⟩] 0 [op5] (by simp)⟩

/-- C7 (amended): loading raises an error if and only if the blank-line
stripped input violates the contract `wellFormedInput` — positive `K N`
on a two-integer first line, exact line count `1 + K + 6 + 1 + N`, base
lines of exactly three floats, joint lines of exactly four floats with
`min <= max`, `vmax > 0`, `amax > 0` (wrong joint arity is an uncaught
`TypeError`), a two-float safety line with `tool_clearance >= 0` and
`safe_distance > 0`, and operation lines with at least seven fields
(fewer is an uncaught `IndexError`) whose first seven parse as floats
with `process_time >= 0`; fields past the seventh are never inspected.
On any load error, `run_scheduler` propagates it and emits no
schedule. -/
theorem C7_load_iff (lines : List Line) :
    ((∃ c, Desktop.load_from_lines lines = .ok c) ↔ Desktop.wellFormedInput lines) ∧
      ∀ e, Desktop.load_from_lines lines = .error e →
        Desktop.run_scheduler lines = .error e := by
  refine ⟨Desktop.load_from_lines_ok_iff lines, fun e he => ?_⟩
  rw [Desktop.run_scheduler, he]
  rfl

/-- Witness for C7: the empty input raises `emptyInput` and the run
emits nothing. -/
theorem C7_witness :
    Desktop.load_from_lines [] = .error .emptyInput ∧
      Desktop.run_scheduler [] = .error .emptyInput :=
  ⟨rfl, (C7_load_iff []).2 .emptyInput rfl⟩

/-- C7 counterexample: a fully valid input whose operation line carries
an unparseable eighth field loads successfully — the claim's "a field
fails to parse as a number raises an input error" is false, because the
loader never inspects fields past the seventh of an operation line. -/
theorem C7_counterexample :
    (∃ c, Desktop.load_from_lines cex7 = .ok c) ∧
      ((cex7.getD 9 []).getD 7 (fTok 0)).asFloat = none := by
  constructor
  · rw [Desktop.load_from_lines]
    rw [show cex7.filter (fun l => !l.isEmpty) = cex7 from rfl]
    refine (Desktop.loadCore_ok_iff cex7).mpr
      ⟨1, 1, ⟨iTok 1, iTok 1, rfl, rfl, rfl⟩, by norm_num, by norm_num, rfl, ?_, ?_, ?_, ?_⟩
    · intro l hl
      rw [show ((cex7.drop 1).take (1:ℤ).toNat) = [[fTok 0, fTok 0, fTok 0]] from rfl] at hl
      simp only [List.mem_singleton] at hl
      subst hl
      refine ⟨?_, rfl⟩
      intro t ht
      simp only [List.mem_cons, List.not_mem_nil, or_false] at ht
      rcases ht with rfl | rfl | rfl <;> rfl
    · intro l hl
      rw [show ((cex7.drop (1 + (1:ℤ).toNat)).take 6) =
        [jointLine7, jointLine7, jointLine7, jointLine7, jointLine7, jointLine7] from rfl] at hl
      simp only [List.mem_cons, List.not_mem_nil, or_false] at hl
      have hgoal : ∃ mn mx v a : ℝ,
          Desktop.parseFloats jointLine7 = some [mn, mx, v, a] ∧ mn ≤ mx ∧ 0 < v ∧ 0 < a :=
        ⟨-170, 170, 90, 45, rfl, by norm_num, by norm_num, by norm_num⟩
      rcases hl with rfl | rfl | rfl | rfl | rfl | rfl <;> exact hgoal
    · exact ⟨0.1, 0.2, rfl, by norm_num, by norm_num⟩
    · intro l hl
      rw [show ((cex7.drop (1 + (1:ℤ).toNat + 6 + 1)).take (1:ℤ).toNat) =
        [[fTok 0.5, fTok 0.5, fTok 0.5, fTok 1, fTok 1, fTok 1, fTok 500, badTok]]
        from rfl] at hl
      simp only [List.mem_singleton] at hl
      subst hl
      refine ⟨by norm_num, ?_, 500, rfl, by norm_num⟩
      intro t ht
      rw [show (([fTok 0.5, fTok 0.5, fTok 0.5, fTok 1, fTok 1, fTok 1, fTok 500,
          badTok] : Line).take 7) =
        [fTok 0.5, fTok 0.5, fTok 0.5, fTok 1, fTok 1, fTok 1, fTok 500] from rfl] at ht
      simp only [List.mem_cons, List.not_mem_nil, or_false] at ht
      rcases ht with rfl | rfl | rfl | rfl | rfl | rfl | rfl <;> rfl
  · rfl
